import Mathlib

set_option maxRecDepth 10000

deriving instance DecidableEq for Except

/-!
Shallow embedding of `src/PIL/ImagePalette.py` (fish2000/Pillow fork).

The module has one pure helper, `split_abbreviations`, and one class,
`ImagePalette`, plus factory functions (`raw`, `negative`, ...).  We model:

  * byte buffers (`bytearray` / `list` of small ints) as `List Nat`;
  * the `colors` dict (inserted only when the key is absent, so keys are
    distinct and insertion order is list order) as an association list
    `List (List Nat × Nat)` looked up with `List.lookup`;
  * Python truthiness of the optional arguments (`channels or ...`,
    `palette or ...`, `if self.rawmode:`) explicitly: `none` and the empty
    list / empty string are falsy;
  * exceptions as `Except PalErr`; mutation as explicit state passing, with
    the post-exception state returned alongside the error (Python objects
    keep the partial mutations when an exception escapes `getcolor`).

`channels` is duck-typed in Python: `ImagePalette.__init__` only takes its
length, and the factory `negative` actually passes a list of *ints* in the
`channels` position.  We therefore embed channel entries as a sum of the two
kinds of values that actually flow there.
-/

/-- Errors raised by the module (all are `ValueError`/`IndexError` in Python;
the constructors follow the spec's taxonomy plus the built-in errors). -/
inductive PalErr where
  /-- "wrong palette size" (spec: InvalidSizeError) -/
  | wrongPaletteSize
  /-- "palette contains raw palette data" (spec: RawPaletteError) -/
  | rawPaletteData
  /-- "cannot allocate more than 256 colors" (spec: PaletteFullError) -/
  | paletteFull
  /-- "unknown color specifier" (spec: InvalidColorSpecifierError) -/
  | unknownColorSpecifier
  /-- Python `IndexError` (tuple or bytearray index out of range) -/
  | indexError
  /-- Python `ValueError` for a bytearray value outside 0..255 -/
  | byteOutOfRange
  deriving DecidableEq, Repr

/-- One entry of the `channels` sequence.  Normally a label string, but the
broken factory calls pass ints in this position (Python is duck-typed and
`__init__` only ever takes `len(channels)`). -/
inductive Chan where
  | str : String → Chan
  | int : Nat → Chan
  deriving DecidableEq, Repr

/-- State of an `ImagePalette` object. -/
structure Palette where
  mode : String
  channels : List Chan
  rawmode : Option String
  palette : List Nat
  colors : List (List Nat × Nat)
  dirty : Option Nat
  deriving DecidableEq, Repr

/-- Python `char.islower()` for the single characters scanned by
`split_abbreviations` (ASCII mode strings): a lowercase letter. -/
def pyIslowerChar (c : Char) : Bool :=
  c.isLower

/-- Python `str.islower()` on a token: at least one cased character and no
uppercase cased character (ASCII tokens only, which is all that occurs in
mode strings). -/
def pyIslowerStr (s : String) : Bool :=
  s.toList.any (fun c => c.isAlpha) && s.toList.all (fun c => !c.isAlpha || c.isLower)

/-- The character loop of `split_abbreviations`: `current` is
`current_token`, `abbrs` is `abbreviations`.  On a token-closing character
the closed token is appended only if it is not all-lowercase and not already
present; the final pending token is appended (if nonempty and not already
present) without the lowercase filter. -/
def splitLoop : List Char → String → List String → List String
  | [], current, abbrs =>
      if current ≠ "" then
        if !abbrs.contains current then abbrs ++ [current] else abbrs
      else abbrs
  | c :: rest, current, abbrs =>
      if current = "" then
        splitLoop rest (current.push c) abbrs
      else if pyIslowerChar c then
        splitLoop rest (current.push c) abbrs
      else
        let abbrs' :=
          if !pyIslowerStr current && !abbrs.contains current then abbrs ++ [current]
          else abbrs
        splitLoop rest (String.singleton c) abbrs'

/-- Model of `split_abbreviations(s)`: split a mode string into its unique channel
abbreviations by capitalization, after truncating at the first `;`
(`s.split(';')[0]`). -/
def split_abbreviations (s : String) : List String :=
  splitLoop (s.toList.takeWhile (fun c => c ≠ ';')) "" []

/-- Python sequence repetition `l * n` (used as `bytearray(range(256)) * k`
and `palette * len(...)`). -/
def listMul (l : List Nat) : Nat → List Nat
  | 0 => []
  | n + 1 => l ++ listMul l n

/-- Model of `self.channels = channels or split_abbreviations(self.mode)`: a falsy
`channels` argument (absent or empty) is replaced by the labels derived from
the mode string. -/
def effChannels (mode : String) (channelsArg : Option (List Chan)) : List Chan :=
  match channelsArg with
  | some cs => if cs.isEmpty then (split_abbreviations mode).map Chan.str else cs
  | none => (split_abbreviations mode).map Chan.str

/-- Model of `self.palette = palette or bytearray(range(256)) * len(self.channels)`:
a falsy `palette` argument (absent or empty) is replaced by the identity
ramp repeated once per channel. -/
def effPalette (chsLen : Nat) (paletteArg : Option (List Nat)) : List Nat :=
  match paletteArg with
  | some l => if l.isEmpty then listMul (List.range 256) chsLen else l
  | none => listMul (List.range 256) chsLen

/-- Model of `ImagePalette.__init__(mode, channels, palette, size)`: apply the two
truthiness defaults, then raise `ValueError("wrong palette size")` when
`(size == 0 and len(channels) * 256 != len(palette)) or
 (size != 0 and size != len(palette))`. -/
def mkImagePalette (mode : String) (channelsArg : Option (List Chan))
    (paletteArg : Option (List Nat)) (size : Nat) : Except PalErr Palette :=
  let chs : List Chan := effChannels mode channelsArg
  let pal : List Nat := effPalette chs.length paletteArg
  if (size = 0 ∧ chs.length * 256 ≠ pal.length) ∨ (size ≠ 0 ∧ size ≠ pal.length) then
    Except.error PalErr.wrongPaletteSize
  else
    Except.ok
      { mode := mode, channels := chs, rawmode := none, palette := pal,
        colors := [], dirty := none }

/-- Python truthiness of `self.rawmode` (`None` and `""` are falsy). -/
def isRawTruthy (rm : Option String) : Bool :=
  match rm with
  | none => false
  | some s => !(s == "")

/-- Model of `ImagePalette.tobytes()`: raises on a (truthy) raw palette, otherwise
returns the buffer as bytes.  `array.array("B", self.palette)` rejects
values outside 0..255, modelled by the `all` guard; the `bytes` fast path
returns the same contents and is folded away. -/
def tobytes (p : Palette) : Except PalErr (List Nat) :=
  if isRawTruthy p.rawmode then Except.error PalErr.rawPaletteData
  else if p.palette.all (fun v => v < 256) then Except.ok p.palette
  else Except.error PalErr.byteOutOfRange

/-- Model of `ImagePalette.getdata()`: `(rawmode, palette)` for a raw palette,
otherwise `(mode + ";L", tobytes())`. -/
def getdata (p : Palette) : Except PalErr (String × List Nat) :=
  if isRawTruthy p.rawmode then Except.ok (p.rawmode.getD "", p.palette)
  else (tobytes p).map (fun b => (p.mode ++ ";L", b))

/-- One bytearray item assignment `buf[j] = v`: `IndexError` when the index
is out of range, `ValueError` when the value is not a byte. -/
def writeByte (buf : List Nat) (j v : Nat) : Except PalErr (List Nat) :=
  if j < buf.length then
    if v < 256 then Except.ok (buf.set j v) else Except.error PalErr.byteOutOfRange
  else Except.error PalErr.indexError

/-- Model of `ImagePalette.getcolor(color)` for a tuple argument (the only case the
claims quantify over; a non-tuple raises `unknownColorSpecifier`).  Returns
the result together with the state of the object afterwards — on an
exception the partial mutations already performed are kept, exactly as in
Python.  Statement order follows the source: raw check, dict lookup,
capacity check, `colors[color] = index`, then the three buffer writes
(`palette[index] = color[0]` evaluates `color[0]` first, so a short tuple
raises `IndexError` before that write), and finally `dirty = 1`. -/
def getcolor (p : Palette) (color : List Nat) : Except PalErr Nat × Palette :=
  if isRawTruthy p.rawmode then (Except.error PalErr.rawPaletteData, p)
  else
    match List.lookup color p.colors with
    | some idx => (Except.ok idx, p)
    | none =>
      let index := p.colors.length
      if 256 ≤ index then (Except.error PalErr.paletteFull, p)
      else
        let p1 : Palette := { p with colors := p.colors ++ [(color, index)] }
        match color.get? 0 with
        | none => (Except.error PalErr.indexError, p1)
        | some c0 =>
          match writeByte p1.palette index c0 with
          | Except.error e => (Except.error e, p1)
          | Except.ok buf0 =>
            let p2 : Palette := { p1 with palette := buf0 }
            match color.get? 1 with
            | none => (Except.error PalErr.indexError, p2)
            | some c1 =>
              match writeByte p2.palette (index + 256) c1 with
              | Except.error e => (Except.error e, p2)
              | Except.ok buf1 =>
                let p3 : Palette := { p2 with palette := buf1 }
                match color.get? 2 with
                | none => (Except.error PalErr.indexError, p3)
                | some c2 =>
                  match writeByte p3.palette (index + 512) c2 with
                  | Except.error e => (Except.error e, p3)
                  | Except.ok buf2 =>
                    (Except.ok index, { p3 with palette := buf2, dirty := some 1 })

/-- A sequence of `getcolor` calls, keeping the (possibly partially
mutated) state after each call whether or not it raised. -/
def runGetcolors (p : Palette) : List (List Nat) → Palette
  | [] => p
  | c :: cs => runGetcolors (getcolor p c).2 cs

/-- Python `range(a, b)`. -/
def pyRange (a b : Nat) : List Nat :=
  (List.range (b - a)).map (fun k => a + k)

/-- One data line of `ImagePalette.save`: `"%d" % i` followed by
`" %d" % self.palette[j]` for `j in range(i*len(channels), (i+1)*len(channels))`,
where an `IndexError` on `palette[j]` is caught and `" 0"` written instead
(hence `getD j 0`). -/
def saveLine (p : Palette) (i : Nat) : String :=
  toString i ++
    String.join ((pyRange (i * p.channels.length) ((i + 1) * p.channels.length)).map
      (fun j => " " ++ toString (p.palette.getD j 0)))

/-- Model of `ImagePalette.save(fp)`: raises on a raw palette, otherwise writes
`# Palette`, `# Mode: <mode>`, then the 256 data lines.  We model the text
written to the file as its list of lines. -/
def save (p : Palette) : Except PalErr (List String) :=
  if isRawTruthy p.rawmode then Except.error PalErr.rawPaletteData
  else Except.ok (["# Palette", "# Mode: " ++ p.mode] ++ (List.range 256).map (saveLine p))

/-- The factory `raw(rawmode, data)`: builds a default `ImagePalette()`
(which always succeeds), then overwrites `rawmode`, `channels`, `palette`
and sets `dirty = 1`. -/
def raw (rawmode : String) (data : List Nat) : Except PalErr Palette :=
  (mkImagePalette "RGB" none none 0).map (fun p =>
    { p with rawmode := some rawmode,
             channels := (split_abbreviations rawmode).map Chan.str,
             palette := data,
             dirty := some 1 })

/-- The factory `negative(mode)`: reverses `list(range(256))` and passes
`palette * len(split_abbreviations(mode))` as the SECOND positional
argument of `ImagePalette` — which in this fork is `channels`, not
`palette`. -/
def negative (mode : String := "RGB") : Except PalErr Palette :=
  let palette := (List.range 256).reverse
  mkImagePalette mode
    (some ((listMul palette (split_abbreviations mode).length).map Chan.int)) none 0

/-- The palette produced by a default `ImagePalette()` construction
(mode "RGB", derived channels, identity ramp per channel). -/
def rgbDefault : Palette :=
  { mode := "RGB", channels := [Chan.str "R", Chan.str "G", Chan.str "B"],
    rawmode := none, palette := listMul (List.range 256) 3,
    colors := [], dirty := none }

/-- A default RGB palette after one allocation of `(1, 2, 3)` at index 0
(concrete instance used to witness the lookup path of `getcolor`). -/
def paletteOne : Palette :=
  { rgbDefault with
      palette := ((rgbDefault.palette.set 0 1).set 256 2).set 512 3,
      colors := [([1, 2, 3], 0)], dirty := some 1 }

/-- A default RGB palette with 255 colors already allocated (colors
`(i, 0, 0)` at index `i` for `i < 255`); one slot remains free. -/
def palette255 : Palette :=
  { rgbDefault with
      colors := (List.range 255).map (fun i => ([i, 0, 0], i)) }

-- Sanity checks of the splitter on the docstring examples.
example : split_abbreviations "RGB" = ["R", "G", "B"] := by decide
example : split_abbreviations "YCbCr" = ["Y", "Cb", "Cr"] := by decide
example : split_abbreviations "I;16B" = ["I"] := by decide

/-! ## Helper lemmas -/

theorem listMul_length (l : List Nat) (n : Nat) : (listMul l n).length = n * l.length := by
  induction n with
  | zero => simp [listMul]
  | succ k ih => simp [listMul, ih, Nat.succ_mul, Nat.add_comm]

theorem lookup_append_none {α β : Type} [BEq α] (a : α) (l l' : List (α × β))
    (h : List.lookup a l = none) : List.lookup a (l ++ l') = List.lookup a l' := by
  induction l with
  | nil => simp
  | cons hd tl ih =>
      rcases hd with ⟨k, v⟩
      by_cases hk : (a == k) = true
      · simp [List.lookup, hk] at h
      · simp [List.lookup, hk] at h ⊢
        exact ih h

theorem getD_set_self (l : List Nat) (i v d : Nat) (h : i < l.length) :
    (l.set i v).getD i d = v := by
  simp [List.getD, List.getElem?_set_self', List.getElem?_eq_getElem h]

theorem getD_set_ne (l : List Nat) (i j v d : Nat) (h : i ≠ j) :
    (l.set i v).getD j d = l.getD j d := by
  simp [List.getD, List.getElem?_set_ne h]

/-- The successful allocation path of `getcolor`: a fresh color tuple with at
least three in-range components, a free slot, and a buffer long enough for
the three writes.  Exactly the first three components are written, at
offsets `index`, `index + 256`, `index + 512`. -/
theorem getcolor_alloc (p : Palette) (c : List Nat)
    (hraw : isRawTruthy p.rawmode = false)
    (hfresh : List.lookup c p.colors = none)
    (hidx : p.colors.length < 256)
    (hlen : 3 ≤ c.length)
    (hbuf : p.colors.length + 512 < p.palette.length)
    (h0 : c.getD 0 0 < 256) (h1 : c.getD 1 0 < 256) (h2 : c.getD 2 0 < 256) :
    getcolor p c =
      (Except.ok p.colors.length,
       { p with colors := p.colors ++ [(c, p.colors.length)],
                palette := ((p.palette.set p.colors.length (c.getD 0 0)).set
                              (p.colors.length + 256) (c.getD 1 0)).set
                              (p.colors.length + 512) (c.getD 2 0),
                dirty := some 1 }) := by
  rcases c with _ | ⟨a, _ | ⟨b, _ | ⟨d, t⟩⟩⟩ <;> simp at hlen
  simp only [List.getD, List.get?_cons_zero, List.get?_cons_succ,
    Option.getD_some] at h0 h1 h2 ⊢
  unfold getcolor
  rw [hraw]
  simp only [Bool.false_eq_true, if_false, hfresh]
  rw [if_neg (by omega)]
  simp only [List.get?_cons_zero, List.get?_cons_succ]
  unfold writeByte
  rw [if_pos (by omega), if_pos h0]
  simp only [List.length_set]
  rw [if_pos (by omega), if_pos h1]
  simp only [List.length_set]
  rw [if_pos (by omega), if_pos h2]

/-- Lemma: `getcolor` either leaves `colors` unchanged or, when a slot was free,
appends exactly one entry for the requested color. -/
theorem getcolor_colors_cases (p : Palette) (c : List Nat) :
    ((getcolor p c).2).colors = p.colors ∨
    (p.colors.length < 256 ∧
      ((getcolor p c).2).colors = p.colors ++ [(c, p.colors.length)]) := by
  unfold getcolor
  by_cases hr : isRawTruthy p.rawmode = true
  · simp [hr]
  · rw [Bool.not_eq_true] at hr
    rcases hl : List.lookup c p.colors with _ | idx
    · by_cases hcap : 256 ≤ p.colors.length
      · simp [hr, hl, hcap]
      · right
        refine ⟨by omega, ?_⟩
        simp only [hr, hl, Bool.false_eq_true, if_false, if_neg hcap]
        repeat' (first | rfl | split)
    · simp [hr, hl]

/-- The size of `colors` never exceeds 256 under any sequence of `getcolor`
calls. -/
theorem runGetcolors_le (p : Palette) (ops : List (List Nat))
    (h : p.colors.length ≤ 256) :
    (runGetcolors p ops).colors.length ≤ 256 := by
  induction ops generalizing p with
  | nil => simpa [runGetcolors]
  | cons c cs ih =>
      have hc := getcolor_colors_cases p c
      unfold runGetcolors
      apply ih
      rcases hc with h1 | ⟨h1, h2⟩
      · rw [h1]; exact h
      · rw [h2]; simp; omega

/-- C6: the Abbreviation Splitter reproduces the six worked examples. -/
theorem c6_split_examples :
    split_abbreviations "RGB" = ["R", "G", "B"] ∧
    split_abbreviations "CMYK" = ["C", "M", "Y", "K"] ∧
    split_abbreviations "YCbCr" = ["Y", "Cb", "Cr"] ∧
    split_abbreviations "sRGB" = ["R", "G", "B"] ∧
    split_abbreviations "XYZZ" = ["X", "Y", "Z"] ∧
    split_abbreviations "I;16B" = ["I"] := by
  refine ⟨by decide, by decide, by decide, by decide, by decide, by decide⟩

/-- C10: an empty supplied buffer and an empty channels sequence are falsy
and silently replaced by the defaults; construction succeeds for every mode. -/
theorem c10_empty_args_use_defaults (mode : String) :
    mkImagePalette mode (some []) (some []) 0 =
      Except.ok { mode := mode,
                  channels := (split_abbreviations mode).map Chan.str,
                  rawmode := none,
                  palette := listMul (List.range 256) (split_abbreviations mode).length,
                  colors := [], dirty := none } := by
  unfold mkImagePalette effChannels effPalette
  simp [listMul_length]

theorem c10_empty_args_use_defaults_witness :
    mkImagePalette "P" (some []) (some []) 0 =
      Except.ok { mode := "P",
                  channels := (split_abbreviations "P").map Chan.str,
                  rawmode := none,
                  palette := listMul (List.range 256) (split_abbreviations "P").length,
                  colors := [], dirty := none } :=
  c10_empty_args_use_defaults "P"

/-- C5 counterexample: with a supplied EMPTY buffer and declared size 0 the
claim demands `InvalidSizeError` (0 ≠ 256·3), but construction succeeds. -/
theorem c5_counterexample :
    mkImagePalette "RGB" none (some []) 0 ≠ Except.error PalErr.wrongPaletteSize ∧
    (List.length ([] : List Nat) ≠ 256 * 3) := by
  refine ⟨by decide, by decide⟩

/-- C5 (amended): for a NONEMPTY supplied buffer, construction fails with
`wrongPaletteSize` exactly when (size = 0 and the buffer length differs from
256 times the channel count) or (size ≠ 0 and differs from the buffer
length); in every other combination it succeeds, keeping the buffer. -/
theorem c5_size_validation (mode : String) (channelsArg : Option (List Chan))
    (buf : List Nat) (size : Nat) (hne : buf ≠ []) :
    (mkImagePalette mode channelsArg (some buf) size = Except.error PalErr.wrongPaletteSize ↔
      ((size = 0 ∧ (effChannels mode channelsArg).length * 256 ≠ buf.length) ∨
       (size ≠ 0 ∧ size ≠ buf.length))) ∧
    (¬ ((size = 0 ∧ (effChannels mode channelsArg).length * 256 ≠ buf.length) ∨
        (size ≠ 0 ∧ size ≠ buf.length)) →
      mkImagePalette mode channelsArg (some buf) size =
        Except.ok { mode := mode, channels := effChannels mode channelsArg,
                    rawmode := none, palette := buf, colors := [], dirty := none }) := by
  have hbe : buf.isEmpty = false := by
    cases buf with
    | nil => exact absurd rfl hne
    | cons a t => rfl
  unfold mkImagePalette effPalette
  simp only [hbe, Bool.false_eq_true, if_false]
  by_cases hc : (size = 0 ∧ (effChannels mode channelsArg).length * 256 ≠ buf.length) ∨
      (size ≠ 0 ∧ size ≠ buf.length)
  · rw [if_pos hc]
    exact ⟨⟨fun _ => hc, fun _ => rfl⟩, fun h => absurd hc h⟩
  · rw [if_neg hc]
    exact ⟨⟨fun h => Except.noConfusion h, fun h => absurd h hc⟩, fun _ => rfl⟩

theorem c5_size_validation_witness :
    mkImagePalette "RGB" none (some [1, 2, 3]) 3 =
      Except.ok { mode := "RGB", channels := effChannels "RGB" none,
                  rawmode := none, palette := [1, 2, 3], colors := [], dirty := none } :=
  (c5_size_validation "RGB" none [1, 2, 3] 3 (by decide)).2 (by decide)

/-- C2 counterexample: on a palette from the raw factory, `getdata` does NOT
fail — it returns `(rawmode, palette)` unchanged. -/
theorem c2_counterexample :
    (raw "RGB;L" [1, 2, 3]).map getdata =
      Except.ok (Except.ok ("RGB;L", [1, 2, 3])) := by
  decide

/-- C2 (amended): on a palette from the raw factory (nonempty raw-mode tag),
`tobytes` and `save` fail with the raw-palette error, while `getdata`
returns `(rawmode, palette)` without failing. -/
theorem c2_raw_palette_ops (rm : String) (data : List Nat) (hrm : rm ≠ "") :
    (raw rm data).map (fun p => (tobytes p, getdata p, save p)) =
      Except.ok (Except.error PalErr.rawPaletteData,
                 Except.ok (rm, data),
                 Except.error PalErr.rawPaletteData) := by
  have hb : (rm == "") = false := by
    rw [beq_eq_false_iff_ne]
    exact hrm
  have hmk : mkImagePalette "RGB" none none 0 = Except.ok rgbDefault := by decide
  simp [raw, hmk, Except.map, tobytes, getdata, save, isRawTruthy, hb]

theorem c2_raw_palette_ops_witness :
    (raw "RGB;L" [9, 8, 7]).map (fun p => (tobytes p, getdata p, save p)) =
      Except.ok (Except.error PalErr.rawPaletteData,
                 Except.ok ("RGB;L", [9, 8, 7]),
                 Except.error PalErr.rawPaletteData) :=
  c2_raw_palette_ops "RGB;L" [9, 8, 7] (by decide)

/-- C8: `getcolor` on a color already in `colors` returns the recorded index
and leaves the whole palette object unchanged. -/
theorem c8_getcolor_idempotent (p : Palette) (color : List Nat) (idx : Nat)
    (hraw : isRawTruthy p.rawmode = false)
    (hmem : List.lookup color p.colors = some idx) :
    getcolor p color = (Except.ok idx, p) := by
  unfold getcolor
  simp [hraw, hmem]

theorem c8_getcolor_idempotent_witness :
    getcolor paletteOne [1, 2, 3] = (Except.ok 0, paletteOne) :=
  c8_getcolor_idempotent paletteOne [1, 2, 3] 0 (by decide) (by decide)

/-- C3 counterexample: on a CMYK palette (4 channels) `getcolor` of the
fresh 4-tuple `(1,2,3,4)` succeeds with index 0 but never writes the fourth
component: the buffer byte at offset `3*256 + 0` keeps its default value 0,
not 4 as the claim requires. -/
theorem c3_counterexample :
    (mkImagePalette "CMYK" none none 0).map (fun p =>
      ((getcolor p [1, 2, 3, 4]).1,
       ((getcolor p [1, 2, 3, 4]).2).palette.getD (3 * 256 + 0) 0)) =
      Except.ok (Except.ok 0, 0) ∧ (0 : Nat) ≠ 4 := by
  refine ⟨by decide, by decide⟩

/-- C3 (amended): a fresh color with at least three in-range components
allocates the next index and writes exactly the FIRST THREE components at
offsets `index`, `index + 256`, `index + 512` — regardless of the palette's
channel count — records the mapping, and sets `dirty`. -/
theorem c3_getcolor_allocates (p : Palette) (color : List Nat)
    (hraw : isRawTruthy p.rawmode = false)
    (hfresh : List.lookup color p.colors = none)
    (hidx : p.colors.length < 256)
    (hlen : 3 ≤ color.length)
    (hbuf : p.colors.length + 512 < p.palette.length)
    (h0 : color.getD 0 0 < 256) (h1 : color.getD 1 0 < 256)
    (h2 : color.getD 2 0 < 256) :
    getcolor p color =
      (Except.ok p.colors.length,
       { p with colors := p.colors ++ [(color, p.colors.length)],
                palette := ((p.palette.set p.colors.length (color.getD 0 0)).set
                              (p.colors.length + 256) (color.getD 1 0)).set
                              (p.colors.length + 512) (color.getD 2 0),
                dirty := some 1 }) :=
  getcolor_alloc p color hraw hfresh hidx hlen hbuf h0 h1 h2

theorem c3_getcolor_allocates_witness :
    getcolor rgbDefault [10, 20, 30] =
      (Except.ok 0,
       { mode := "RGB", channels := [Chan.str "R", Chan.str "G", Chan.str "B"],
         rawmode := none,
         palette := ((rgbDefault.palette.set 0 10).set 256 20).set 512 30,
         colors := [([10, 20, 30], 0)], dirty := some 1 }) :=
  c3_getcolor_allocates rgbDefault [10, 20, 30] (by decide) (by decide)
    (by decide) (by decide) (by decide) (by decide) (by decide) (by decide)

theorem listMul_getD_zero (l : List Nat) (n d : Nat) (hn : 0 < n) (hl : l ≠ []) :
    (listMul l n).getD 0 d = l.getD 0 d := by
  cases n with
  | zero => omega
  | succ k =>
      cases l with
      | nil => exact absurd rfl hl
      | cons a t => rfl

/-- C1: `negative("RGB")` passes the reversed ramp as the `channels`
argument (second positional), so the constructed palette has 768 channel
entries and its buffer is the DEFAULT identity ramp repeated 768 times:
the byte for index 0, channel R is 0, not 255. -/
theorem c1_negative_is_identity_ramp :
    (negative "RGB").map (fun p => (p.channels.length, p.palette.getD 0 0)) =
      Except.ok (768, 0) ∧
    (negative "RGB").map (fun p => p.palette.getD 0 0) ≠ Except.ok 255 := by
  have hs : split_abbreviations "RGB" = ["R", "G", "B"] := by decide
  have hch : ((listMul (List.range 256).reverse 3).map Chan.int).isEmpty = false := by decide
  have hlen : ((listMul (List.range 256).reverse 3).map Chan.int).length = 768 := by
    simp [List.length_map, listMul_length]
  have hne : negative "RGB" = Except.ok
      { mode := "RGB", channels := (listMul (List.range 256).reverse 3).map Chan.int,
        rawmode := none, palette := listMul (List.range 256) 768,
        colors := [], dirty := none } := by
    unfold negative mkImagePalette effChannels effPalette
    simp [hs, hch, hlen, listMul_length]
  have hget : (listMul (List.range 256) 768)[0]?.getD 0 = 0 := by
    have h1 : (listMul (List.range 256) 768).getD 0 0 = 0 := by
      rw [listMul_getD_zero _ _ _ (by omega) (by decide)]
      decide
    simpa [List.getD] using h1
  constructor
  · rw [hne]
    simp [Except.map, hlen, hget]
  · rw [hne]
    simp [Except.map, hget]

theorem saveLine_eq (p : Palette) (i : Nat) :
    saveLine p i =
      toString i ++ String.join ((List.range p.channels.length).map
        (fun c => " " ++ toString (p.palette.getD (i * p.channels.length + c) 0))) := by
  unfold saveLine pyRange
  have hsub : (i + 1) * p.channels.length - i * p.channels.length = p.channels.length := by
    rw [Nat.succ_mul]
    omega
  rw [hsub, List.map_map]
  rfl

/-- C7 counterexample: for the default RGB palette the data line for index 1
is "1 3 4 5" (bytes at offsets 3, 4, 5 = i*C + c), not "1 1 1 1" (the bytes
at the claimed offsets c*256 + 1 of the per-channel ramp). -/
theorem c7_counterexample :
    (mkImagePalette "RGB" none none 0).map (fun p =>
      (save p).map (fun ls => ls.getD 3 "")) =
      Except.ok (Except.ok "1 3 4 5") ∧ "1 3 4 5" ≠ "1 1 1 1" := by
  refine ⟨by decide, by decide⟩

/-- C7 (amended): `save` on a structured palette emits "# Palette",
"# Mode: <mode>", then 256 lines; line `i` lists `i` followed by the buffer
bytes at offsets `i*C + c` for `c < C` (index-major, NOT `c*256 + i`), with
0 substituted for any offset beyond the end of the buffer. -/
theorem c7_save_text_dump (p : Palette) (hraw : isRawTruthy p.rawmode = false) :
    save p = Except.ok (["# Palette", "# Mode: " ++ p.mode] ++
      (List.range 256).map (fun i =>
        toString i ++ String.join ((List.range p.channels.length).map
          (fun c => " " ++ toString (p.palette.getD (i * p.channels.length + c) 0))))) := by
  unfold save
  rw [hraw]
  simp only [Bool.false_eq_true, if_false]
  rw [show saveLine p = fun i =>
        toString i ++ String.join ((List.range p.channels.length).map
          (fun c => " " ++ toString (p.palette.getD (i * p.channels.length + c) 0)))
      from funext (saveLine_eq p)]

theorem c7_save_text_dump_witness :
    save rgbDefault = Except.ok (["# Palette", "# Mode: " ++ rgbDefault.mode] ++
      (List.range 256).map (fun i =>
        toString i ++ String.join ((List.range rgbDefault.channels.length).map
          (fun c => " " ++ toString (rgbDefault.palette.getD
            (i * rgbDefault.channels.length + c) 0))))) :=
  c7_save_text_dump rgbDefault (by decide)

/-- C9: `getcolor` with a fresh too-short tuple raises `IndexError`, but only
after recording the color→index mapping and writing the components it did
read; the failure is not atomic, and a repeat call returns the recorded
index without error.  (`dirty` is also left untouched.) -/
theorem c9_short_tuple_partial_mutation (p : Palette) (color : List Nat)
    (hraw : isRawTruthy p.rawmode = false)
    (hshort : color.length < 3)
    (hfresh : List.lookup color p.colors = none)
    (hidx : p.colors.length < 256)
    (hbuf : p.colors.length + 512 < p.palette.length)
    (hvals : ∀ v ∈ color, v < 256) :
    (getcolor p color).1 = Except.error PalErr.indexError ∧
    ((getcolor p color).2).colors = p.colors ++ [(color, p.colors.length)] ∧
    (∀ k, k < color.length →
      ((getcolor p color).2).palette.getD (p.colors.length + 256 * k) 0 =
        color.getD k 0) ∧
    ((getcolor p color).2).dirty = p.dirty ∧
    getcolor ((getcolor p color).2) color =
      (Except.ok p.colors.length, (getcolor p color).2) := by
  rcases color with _ | ⟨a, _ | ⟨b, _ | ⟨c3, t⟩⟩⟩
  · -- color = []
    have hg : getcolor p [] =
        (Except.error PalErr.indexError,
         { p with colors := p.colors ++ [([], p.colors.length)] }) := by
      unfold getcolor
      rw [hraw]
      simp only [Bool.false_eq_true, if_false, hfresh]
      rw [if_neg (by omega)]
      rfl
    rw [hg]
    refine ⟨rfl, rfl, by intro k hk; simp at hk, rfl, ?_⟩
    unfold getcolor
    simp only [hraw, Bool.false_eq_true, if_false]
    rw [lookup_append_none _ _ _ hfresh]
    simp [List.lookup]
  · -- color = [a]
    have ha : a < 256 := hvals a (by simp)
    have hg : getcolor p [a] =
        (Except.error PalErr.indexError,
         { p with colors := p.colors ++ [([a], p.colors.length)],
                  palette := p.palette.set p.colors.length a }) := by
      unfold getcolor
      rw [hraw]
      simp only [Bool.false_eq_true, if_false, hfresh]
      rw [if_neg (by omega)]
      simp only [List.get?_cons_zero, List.get?_cons_succ]
      unfold writeByte
      rw [if_pos (by omega), if_pos ha]
      rfl
    rw [hg]
    refine ⟨rfl, rfl, ?_, rfl, ?_⟩
    · intro k hk
      have hk0 : k = 0 := by simpa using hk
      subst hk0
      simpa using getD_set_self p.palette p.colors.length a 0 (by omega)
    · unfold getcolor
      simp only [hraw, Bool.false_eq_true, if_false]
      rw [lookup_append_none _ _ _ hfresh]
      simp [List.lookup]
  · -- color = [a, b]
    have ha : a < 256 := hvals a (by simp)
    have hb : b < 256 := hvals b (by simp)
    have hg : getcolor p [a, b] =
        (Except.error PalErr.indexError,
         { p with colors := p.colors ++ [([a, b], p.colors.length)],
                  palette := (p.palette.set p.colors.length a).set
                               (p.colors.length + 256) b }) := by
      unfold getcolor
      rw [hraw]
      simp only [Bool.false_eq_true, if_false, hfresh]
      rw [if_neg (by omega)]
      simp only [List.get?_cons_zero, List.get?_cons_succ]
      unfold writeByte
      rw [if_pos (by omega), if_pos ha]
      simp only [List.length_set]
      rw [if_pos (by omega), if_pos hb]
      rfl
    rw [hg]
    refine ⟨rfl, rfl, ?_, rfl, ?_⟩
    · intro k hk
      have hk01 : k = 0 ∨ k = 1 := by simp at hk; omega
      rcases hk01 with rfl | rfl
      · have h1 : ((p.palette.set p.colors.length a).set (p.colors.length + 256) b).getD
            p.colors.length 0 = a := by
          rw [getD_set_ne _ _ _ _ _ (by omega)]
          exact getD_set_self p.palette p.colors.length a 0 (by omega)
        simpa using h1
      · have h1 : ((p.palette.set p.colors.length a).set (p.colors.length + 256) b).getD
            (p.colors.length + 256) 0 = b := by
          apply getD_set_self
          simp only [List.length_set]
          omega
        simpa using h1
    · unfold getcolor
      simp only [hraw, Bool.false_eq_true, if_false]
      rw [lookup_append_none _ _ _ hfresh]
      simp [List.lookup]
  · -- length ≥ 3: contradicts hshort
    exact absurd hshort (by simp)

theorem c9_short_tuple_partial_mutation_witness :
    (getcolor rgbDefault [7, 9]).1 = Except.error PalErr.indexError ∧
    ((getcolor rgbDefault [7, 9]).2).colors = [([7, 9], 0)] ∧
    getcolor ((getcolor rgbDefault [7, 9]).2) [7, 9] =
      (Except.ok 0, (getcolor rgbDefault [7, 9]).2) :=
  have h := c9_short_tuple_partial_mutation rgbDefault [7, 9] (by decide) (by decide)
    (by decide) (by decide) (by decide) (by decide)
  ⟨h.1, h.2.1, h.2.2.2.2⟩

/-- C4: `colors` never exceeds 256 entries under any sequence of `getcolor`
calls; from a palette with 255 allocations, allocating a fresh color (the
256th) succeeds with index 255, after which allocating any further fresh
color fails with `PaletteFullError` leaving the state (in particular every
existing allocation) unchanged. -/
theorem c4_color_capacity (p : Palette) (ops : List (List Nat)) (c c2 : List Nat)
    (hsize : p.colors.length = 255)
    (hraw : isRawTruthy p.rawmode = false)
    (hfresh : List.lookup c p.colors = none)
    (hlen : 3 ≤ c.length)
    (hbuf : p.colors.length + 512 < p.palette.length)
    (h0 : c.getD 0 0 < 256) (h1 : c.getD 1 0 < 256) (h2 : c.getD 2 0 < 256)
    (hfresh2 : List.lookup c2 ((getcolor p c).2).colors = none) :
    (runGetcolors p ops).colors.length ≤ 256 ∧
    (getcolor p c).1 = Except.ok 255 ∧
    ((getcolor p c).2).colors.length = 256 ∧
    getcolor ((getcolor p c).2) c2 =
      (Except.error PalErr.paletteFull, (getcolor p c).2) := by
  have halloc := getcolor_alloc p c hraw hfresh (by omega) hlen hbuf h0 h1 h2
  refine ⟨runGetcolors_le p ops (by omega), ?_, ?_, ?_⟩
  · rw [halloc, hsize]
  · rw [halloc]
    simp [hsize]
  · rw [halloc] at hfresh2 ⊢
    simp only at hfresh2
    unfold getcolor
    simp only [hraw, Bool.false_eq_true, if_false, hfresh2]
    rw [if_pos (by simp [hsize])]

theorem c4_color_capacity_witness :
    (runGetcolors palette255 []).colors.length ≤ 256 ∧
    (getcolor palette255 [255, 1, 1]).1 = Except.ok 255 ∧
    ((getcolor palette255 [255, 1, 1]).2).colors.length = 256 ∧
    getcolor ((getcolor palette255 [255, 1, 1]).2) [254, 2, 2] =
      (Except.error PalErr.paletteFull, (getcolor palette255 [255, 1, 1]).2) :=
  c4_color_capacity palette255 [] [255, 1, 1] [254, 2, 2] (by decide) (by decide)
    (by decide) (by decide) (by decide) (by decide) (by decide) (by decide) (by decide)
